import Mathlib

/-!
Verification of the resilient request-orchestration layer of the
practice-angular repository: the token-refresh services, the auth and
cache interceptors, the request queue, the retry helpers, and the
parameter-building demo service, embedded shallowly from the TypeScript
source (HttpDemoService and the service/interceptor classes of
`docs/HttpClient.md`).
-/

set_option maxHeartbeats 1000000

/-- Token triple stored by the auth layer, from the `AuthTokens` interface
(`accessToken`, `refreshToken`, `expiresIn`). -/
structure AuthTokens where
  accessToken : String
  refreshTokenValue : String
  expiresIn : Nat
deriving DecidableEq

/-- Outcome a caller of `AuthService.refreshToken` eventually observes:
the new tokens, the refresh failure propagated by `catchError`, or the
`No tokens found` error thrown by `getStoredTokens`. -/
inductive RefreshOutcome where
  | success (t : AuthTokens)
  | refreshFailed
  | noTokens
deriving DecidableEq

/-- State of `AuthService` (docs/HttpClient.md, Auth Service Implementation):
`refreshTokenInProgress` flag, the current value of the
`BehaviorSubject<string | null>` `refreshTokenSubject`, the tokens in
`localStorage`, the callers suspended in
`filter(token => token !== null), take(1)`, the caller that initiated the
in-flight refresh, the resolved outcomes, and the number of
`POST /auth/refresh` network calls started. -/
structure AuthState where
  refreshTokenInProgress : Bool
  subjectVal : Option String
  stored : Option AuthTokens
  waiters : List Nat
  refreshInitiator : Option Nat
  results : List (Nat × RefreshOutcome)
  refreshHttpCalls : Nat
deriving DecidableEq

/-- `getStoredTokens()`: reads `localStorage`; errors with `No tokens found`
when absent. -/
def AuthService.getStoredTokens (s : AuthState) : RefreshOutcome :=
  match s.stored with
  | some t => .success t
  | none => .noTokens

/-- Events at the `AuthService.refreshToken` boundary: a caller invokes
`refreshToken()` (and subscribes once), or the in-flight
`POST /auth/refresh` completes with new tokens or with an error. -/
inductive AEvent where
  | invoke (c : Nat)
  | completeSuccess (t : AuthTokens)
  | completeFailure

/-- One step of `AuthService.refreshToken` and its completion handlers,
embedded from docs/HttpClient.md lines 1048-1073.
`invoke`: if `refreshTokenInProgress`, the caller pipes the
`BehaviorSubject` through `filter(token => token !== null), take(1),
switchMap(() => getStoredTokens())` — with a currently non-null subject
value it resolves immediately from the stored tokens, otherwise it joins
the waiters; if not in progress, the flag is set and the network call
starts. `completeSuccess` (the `tap`): clears the flag, stores the tokens,
and `next`s the access token, releasing every waiter with the stored (new)
tokens, while the initiator receives the tokens directly.
`completeFailure` (the `catchError`): clears the flag, `next(null)` (which
the waiters' `filter` discards), `logout()` clears storage, and the error
is rethrown to the initiator only. -/
def AuthService.refreshStep (s : AuthState) : AEvent → AuthState
  | .invoke c =>
    if s.refreshTokenInProgress then
      match s.subjectVal with
      | some _ => { s with results := s.results ++ [(c, AuthService.getStoredTokens s)] }
      | none => { s with waiters := s.waiters ++ [c] }
    else
      { s with refreshTokenInProgress := true,
               refreshInitiator := some c,
               refreshHttpCalls := s.refreshHttpCalls + 1 }
  | .completeSuccess t =>
    if s.refreshTokenInProgress then
      { s with refreshTokenInProgress := false,
               stored := some t,
               subjectVal := some t.accessToken,
               results := s.results
                 ++ (match s.refreshInitiator with
                     | some i => [(i, RefreshOutcome.success t)]
                     | none => [])
                 ++ s.waiters.map (fun w => (w, RefreshOutcome.success t)),
               waiters := [],
               refreshInitiator := none }
    else s
  | .completeFailure =>
    if s.refreshTokenInProgress then
      { s with refreshTokenInProgress := false,
               subjectVal := none,
               stored := none,
               results := s.results
                 ++ (match s.refreshInitiator with
                     | some i => [(i, RefreshOutcome.refreshFailed)]
                     | none => []),
               refreshInitiator := none }
    else s

/-- A fresh `AuthService`: no refresh in flight, `BehaviorSubject` at its
initial `null`, `localStorage` holding `stored0`. -/
def AuthService.init (stored0 : Option AuthTokens) : AuthState :=
  { refreshTokenInProgress := false
    subjectVal := none
    stored := stored0
    waiters := []
    refreshInitiator := none
    results := []
    refreshHttpCalls := 0 }

/-- Run a sequence of events against the auth service. -/
def AuthService.run (s : AuthState) (es : List AEvent) : AuthState :=
  es.foldl AuthService.refreshStep s

/-! ## AuthInterceptor (docs/HttpClient.md, HTTP Interceptor for Auto-Refresh) -/

/-- `xs` occurs as a prefix of `ys` (character lists). -/
def charPrefix : List Char → List Char → Bool
  | [], _ => true
  | _ :: _, [] => false
  | a :: as, b :: bs => a == b && charPrefix as bs

/-- `needle` occurs contiguously inside `hay` (character lists): the
embedding of JavaScript `hay.includes(needle)`. -/
def charContains (needle : List Char) : List Char → Bool
  | [] => needle.isEmpty
  | c :: cs => charPrefix needle (c :: cs) || charContains needle cs

/-- `url.includes(sub)`. -/
def strIncludes (url sub : String) : Bool :=
  charContains sub.toList url.toList

/-- `AuthInterceptor.isAuthEndpoint`:
`url.includes('/auth/login') || url.includes('/auth/refresh')`. -/
def AuthInterceptor.isAuthEndpoint (url : String) : Bool :=
  strIncludes url "/auth/login" || strIncludes url "/auth/refresh"

/-- A wire response observed by the interceptor: a 2xx success carrying a
body, or an `HttpErrorResponse` carrying a status. -/
inductive Resp where
  | ok (body : Nat)
  | errS (status : Nat)
deriving DecidableEq

/-- Result of `AuthService.refreshToken()` as seen by the interceptor. -/
inductive RefreshRes where
  | ok (t : AuthTokens)
  | err
deriving DecidableEq

/-- Error kinds a request orchestrated through `AuthInterceptor` can
terminate with: an HTTP error status propagated to the caller, a failed
token refresh, or the `No tokens found` error from `getStoredTokens`. -/
inductive OErr where
  | http (status : Nat)
  | refreshFailed
  | noStoredTokens
deriving DecidableEq

/-- Terminal outcome of one intercepted request. -/
inductive Outcome where
  | success (body : Nat)
  | failed (e : OErr)
deriving DecidableEq

/-- Errors that the orchestration layer classifies as authentication
failures: a 401 response and a failed refresh. -/
def isAuthError : OErr → Bool
  | .http s => s == 401
  | .refreshFailed => true
  | .noStoredTokens => false

/-- One Transport call as sent on the wire: target url and the
`Authorization` header value attached, if any. -/
structure SentReq where
  url : String
  authHeader : Option String
deriving DecidableEq

/-- Result of running one request through `AuthInterceptor.intercept`:
terminal outcome, the Transport calls made for this request (in order,
with headers), and how many `refreshToken()` calls the 401 path made. -/
structure InterceptResult where
  outcome : Outcome
  sent : List SentReq
  refreshCalls : Nat
deriving DecidableEq

/-- `AuthInterceptor.intercept` with `handle401Error`, embedded from
docs/HttpClient.md lines 1102-1143. `stored` is the `localStorage`
token state read by `addAuthHeader`; `refreshO` the outcome
`authService.refreshToken()` would produce; `responses` the server's
answer to the n-th Transport call for this request.
Auth endpoints are forwarded unchanged (`next.handle(req)` outside the
`catchError` pipe). Otherwise `addAuthHeader` errors without any network
call when no tokens are stored (that error is not an `HttpErrorResponse`,
so `catchError` rethrows it); with tokens, the request goes out with
`Bearer <accessToken>`. A 401 answer enters `handle401Error`: refresh,
then — on refresh success — one retry of the original request with the
new access token, whose own error (401 included) propagates uncaught; a
refresh error also propagates. Non-401 errors are rethrown. -/
def AuthInterceptor.intercept (stored : Option AuthTokens) (refreshO : RefreshRes)
    (responses : Nat → Resp) (url : String) : InterceptResult :=
  if AuthInterceptor.isAuthEndpoint url then
    match responses 0 with
    | .ok b => ⟨.success b, [⟨url, none⟩], 0⟩
    | .errS s => ⟨.failed (.http s), [⟨url, none⟩], 0⟩
  else
    match stored with
    | none => ⟨.failed .noStoredTokens, [], 0⟩
    | some t =>
      let first : SentReq := ⟨url, some ("Bearer " ++ t.accessToken)⟩
      match responses 0 with
      | .ok b => ⟨.success b, [first], 0⟩
      | .errS s =>
        if s = 401 then
          match refreshO with
          | .err => ⟨.failed .refreshFailed, [first], 1⟩
          | .ok t2 =>
            let second : SentReq := ⟨url, some ("Bearer " ++ t2.accessToken)⟩
            match responses 1 with
            | .ok b => ⟨.success b, [first, second], 1⟩
            | .errS s2 => ⟨.failed (.http s2), [first, second], 1⟩
        else ⟨.failed (.http s), [first], 0⟩

/-! ## HttpDemoService.getPostsWithRetry (src service, rxjs retry(3)) -/

/-- Result of the retried GET: the body of the first successful attempt,
or the error of the final attempt once retries are exhausted. -/
inductive RResult where
  | success (body : Nat)
  | failure (status : Nat)
deriving DecidableEq

/-- The resubscription loop of rxjs `retry`: attempt `i` receives
`responses i`; a success ends the stream; an error resubscribes while
attempts remain. Returns (number of attempts made, result). `allowed`
is the number of attempts still permitted (`maxRetries + 1` at the
start). -/
def retryLoop (responses : Nat → Resp) : Nat → Nat → Nat × RResult
  | _, 0 => (0, .failure 0)
  | i, allowed + 1 =>
    match responses i with
    | .ok b => (1, .success b)
    | .errS s =>
      if allowed = 0 then (1, .failure s)
      else
        let r := retryLoop responses (i + 1) allowed
        (r.1 + 1, r.2)

/-- `HttpDemoService.getPostsWithRetry`: `this.http.get(...).pipe(retry(3),
timeout(5000), catchError(...))` — up to 3 resubscriptions after the
first attempt, every error retried alike. -/
def getPostsWithRetry (responses : Nat → Resp) : Nat × RResult :=
  retryLoop responses 0 (3 + 1)

/-! ## retryWithBackoff and BatchErrorHandler (docs/HttpClient.md) -/

/-- Delay chosen by `retryWithBackoff` before retry number
`retryAttempt` (1-based): `timer(retryAttempt * backoffMs)`. -/
def retryWithBackoffDelay (backoffMs retryAttempt : Nat) : Nat :=
  retryAttempt * backoffMs

/-- `retryWithBackoff` gives up (rethrows) once `retryAttempt > maxRetries`. -/
def retryWithBackoffGivesUp (maxRetries retryAttempt : Nat) : Bool :=
  decide (retryAttempt > maxRetries)

/-- Action `BatchErrorHandler.handleBatchError` takes: wait some
milliseconds and retry the batch, or rethrow the error. -/
inductive BatchAction where
  | wait (ms : Nat)
  | rethrow
deriving DecidableEq

/-- `BatchErrorHandler.handleBatchError`: on status 429, wait
`error.headers.get('Retry-After') * 1000` milliseconds and retry the
batch; on anything else, rethrow. A missing header multiplies as 0. -/
def handleBatchError (status : Nat) (retryAfterSecs : Option Nat) : BatchAction :=
  if status = 429 then .wait (retryAfterSecs.getD 0 * 1000) else .rethrow

/-- Delay of the `retry` operator inside `BatchErrorHandler.retryBatch`:
`timer(Math.pow(2, retryCount) * 1000)`. -/
def retryBatchDelay (retryCount : Nat) : Nat :=
  2 ^ retryCount * 1000

/-! ## RequestQueueService (docs/HttpClient.md, Request Queue
Implementation): `mergeMap(request => request(), concurrentRequests)` -/

/-- State of the concurrency-limited `mergeMap`: requests whose inner
observable is currently subscribed (`active`), buffered requests in
arrival order (`waiting`), plus two history fields recording, in order,
every request that ever entered the buffer (`queuedArrivals`) and every
request admitted out of the buffer (`admitted`). -/
structure GateState where
  active : List Nat
  waiting : List Nat
  queuedArrivals : List Nat
  admitted : List Nat
deriving DecidableEq

/-- Events at the queue: a request is pushed through `addToQueue`
(`submit`), or an in-flight inner observable completes (`finish`). -/
inductive GEvent where
  | submit (id : Nat)
  | finish (id : Nat)

/-- One step of `mergeMap(request => request(), N)`: a submitted request
is subscribed immediately while fewer than `N` are active, otherwise
buffered at the tail; when an active request completes, the head of the
buffer (if any) is subscribed next. -/
def RequestQueueService.step (N : Nat) (s : GateState) : GEvent → GateState
  | .submit id =>
    if s.active.length < N then { s with active := s.active ++ [id] }
    else { s with waiting := s.waiting ++ [id],
                  queuedArrivals := s.queuedArrivals ++ [id] }
  | .finish id =>
    if id ∈ s.active then
      match s.waiting with
      | [] => { s with active := s.active.erase id }
      | w :: ws =>
        { active := s.active.erase id ++ [w]
          waiting := ws
          queuedArrivals := s.queuedArrivals
          admitted := s.admitted ++ [w] }
    else s

/-- The queue service starts empty. -/
def RequestQueueService.init : GateState := ⟨[], [], [], []⟩

/-- Run a sequence of submit/finish events against the queue. -/
def RequestQueueService.run (N : Nat) (es : List GEvent) : GateState :=
  es.foldl (RequestQueueService.step N) RequestQueueService.init

/-! ## CacheService and CacheInterceptor (docs/HttpClient.md) -/

/-- First-match lookup in an association list keyed by url — the read
side of the `Map` both caches use. -/
def mapGet {α : Type} (url : String) : List (String × α) → Option α
  | [] => none
  | (k, v) :: rest => if k = url then some v else mapGet url rest

/-- `Map.set`: the new binding shadows any previous one for that key. -/
def mapSet {α : Type} (url : String) (v : α) (m : List (String × α)) :
    List (String × α) :=
  (url, v) :: m

/-- A `CacheService` entry: response data plus the `Date.now()` timestamp
recorded when it was stored. -/
structure CacheEntry where
  data : Nat
  timestamp : Nat
deriving DecidableEq

/-- `CacheService.isExpired`: `Date.now() - entry.timestamp >
MAX_CACHE_AGE` (`maxAge` stands for the `MAX_CACHE_AGE` constant,
`now` for `Date.now()`). -/
def CacheService.isExpired (maxAge now : Nat) (e : CacheEntry) : Bool :=
  decide (now - e.timestamp > maxAge)

/-- `CacheService.getData`, embedded from docs/HttpClient.md lines
368-390: a cached, unexpired entry is answered from the cache with no
network call; otherwise the http GET runs and its response is stored
with the current timestamp. Returns (data delivered, whether a network
call was made, cache afterwards). `net` is the body the network would
answer with. -/
def CacheService.getData (maxAge : Nat) (net : Nat) (now : Nat) (url : String)
    (cache : List (String × CacheEntry)) :
    Nat × Bool × List (String × CacheEntry) :=
  match mapGet url cache with
  | some e =>
    if ¬ CacheService.isExpired maxAge now e then (e.data, false, cache)
    else (net, true, mapSet url ⟨net, now⟩ cache)
  | none => (net, true, mapSet url ⟨net, now⟩ cache)

/-- `CacheInterceptor.intercept`, embedded from docs/HttpClient.md lines
307-328: non-GET requests pass straight through (`next.handle(req)`),
touching neither the cache read nor the cache write; GET requests are
answered from the cache when present (no network), else forwarded and
the successful response stored. Returns (response delivered, whether a
network call was made, cache afterwards). -/
def CacheInterceptor.intercept (method url : String) (net : Nat)
    (cache : List (String × Nat)) : Nat × Bool × List (String × Nat) :=
  if method ≠ "GET" then (net, true, cache)
  else
    match mapGet url cache with
    | some v => (v, false, cache)
    | none => (net, true, mapSet url net cache)

/-! ## HttpDemoService.getPostsWithParams (src service) -/

/-- The query-parameter list `HttpDemoService.getPostsWithParams` builds
(src service, lines 62-69): `if (userId)` appends `userId` only when it
is defined and truthy (a number is truthy exactly when nonzero), while
`_start` and `_limit` are appended whenever they are not `undefined`,
zero included. -/
def getPostsWithParams (userId start0 limit0 : Option Int) :
    List (String × String) :=
  let params : List (String × String) := []
  let params := match userId with
    | some u => if u ≠ 0 then params ++ [("userId", toString u)] else params
    | none => params
  let params := match start0 with
    | some v => params ++ [("_start", toString v)]
    | none => params
  let params := match limit0 with
    | some v => params ++ [("_limit", toString v)]
    | none => params
  params

/-! ## Theorems -/

/-- Claim C9: calling `getPostsWithParams` with `userId = 0` appends no
`userId` query parameter (the truthiness guard `if (userId)` drops 0),
so the parameter list is identical to the one built with `userId`
undefined — filtering by user id 0 is indistinguishable on the wire from
not filtering by user — while `_start = 0` and `_limit = 0` are still
appended, since they are guarded by explicit `!== undefined` checks. -/
theorem C9_userId_zero_dropped :
    (∀ s l : Option Int,
      getPostsWithParams (some 0) s l = getPostsWithParams none s l)
    ∧ getPostsWithParams (some 0) (some 0) (some 0)
        = [("_start", "0"), ("_limit", "0")] := by
  constructor
  · intro s l
    simp [getPostsWithParams]
  · decide

/-- Claim C10: a request whose url contains `/auth/login` or
`/auth/refresh` is forwarded by `AuthInterceptor.intercept` unchanged —
exactly one Transport call carrying no Authorization header, zero
`refreshToken()` calls — and even a 401 answer surfaces as the terminal
error without entering the refresh-and-retry path; in particular the
refresh endpoint itself (`isAuthEndpoint` is true of it) can never
recursively trigger another refresh. -/
theorem C10_auth_endpoints_bypass_refresh (stored : Option AuthTokens)
    (refreshO : RefreshRes) (responses : Nat → Resp) (url : String)
    (h : AuthInterceptor.isAuthEndpoint url = true) :
    (AuthInterceptor.intercept stored refreshO responses url).sent
        = [⟨url, none⟩]
    ∧ (AuthInterceptor.intercept stored refreshO responses url).refreshCalls = 0
    ∧ (∀ s, responses 0 = .errS s →
        (AuthInterceptor.intercept stored refreshO responses url).outcome
          = .failed (.http s)) := by
  cases h0 : responses 0 with
  | ok b =>
    refine ⟨?_, ?_, ?_⟩ <;> simp [AuthInterceptor.intercept, h, h0]
  | errS s =>
    refine ⟨?_, ?_, ?_⟩ <;> simp [AuthInterceptor.intercept, h, h0]

/-- Witness for C10 at the refresh endpoint itself, answered with 401:
one unauthenticated Transport call, no refresh triggered. -/
theorem C10_witness :
    (AuthInterceptor.intercept (some ⟨"a", "r", 1⟩) .err (fun _ => .errS 401)
        "https://api/auth/refresh").sent = [⟨"https://api/auth/refresh", none⟩]
    ∧ (AuthInterceptor.intercept (some ⟨"a", "r", 1⟩) .err (fun _ => .errS 401)
        "https://api/auth/refresh").refreshCalls = 0
    ∧ (AuthInterceptor.intercept (some ⟨"a", "r", 1⟩) .err (fun _ => .errS 401)
        "https://api/auth/refresh").outcome = .failed (.http 401) := by
  have h := C10_auth_endpoints_bypass_refresh (some ⟨"a", "r", 1⟩) .err
    (fun _ => .errS 401) "https://api/auth/refresh" (by decide)
  exact ⟨h.1, h.2.1, h.2.2 401 rfl⟩

/-- Claim C3: when a non-auth-endpoint request with stored tokens is
answered 401, `AuthInterceptor` forces exactly one refresh and retries
the same request exactly once. On refresh failure the request terminates
failed with the refresh error after a single Transport call; on refresh
success a second (and final) Transport call goes out carrying the new
credential `Bearer <new accessToken>`: for `[401, 200]` this gives one
refresh call, two Transport calls, and success, while a second 401
terminates failed with the 401; both terminal errors are classified as
authentication errors. The interceptor's retry involves no attempt
counter, so it is not counted against any `maxAttempts`. -/
theorem C3_401_refresh_retry_once (t : AuthTokens) (refreshO : RefreshRes)
    (responses : Nat → Resp) (url : String)
    (hne : AuthInterceptor.isAuthEndpoint url = false)
    (h0 : responses 0 = .errS 401) :
    (refreshO = .err →
      AuthInterceptor.intercept (some t) refreshO responses url
        = ⟨.failed .refreshFailed,
           [⟨url, some ("Bearer " ++ t.accessToken)⟩], 1⟩)
    ∧ (∀ t2 b, refreshO = .ok t2 → responses 1 = .ok b →
        AuthInterceptor.intercept (some t) refreshO responses url
          = ⟨.success b,
             [⟨url, some ("Bearer " ++ t.accessToken)⟩,
              ⟨url, some ("Bearer " ++ t2.accessToken)⟩], 1⟩)
    ∧ (∀ t2 s2, refreshO = .ok t2 → responses 1 = .errS s2 →
        AuthInterceptor.intercept (some t) refreshO responses url
          = ⟨.failed (.http s2),
             [⟨url, some ("Bearer " ++ t.accessToken)⟩,
              ⟨url, some ("Bearer " ++ t2.accessToken)⟩], 1⟩)
    ∧ isAuthError (.http 401) = true ∧ isAuthError .refreshFailed = true := by
  refine ⟨?_, ?_, ?_, rfl, rfl⟩
  · intro hr
    subst hr
    simp [AuthInterceptor.intercept, hne, h0]
  · intro t2 b hr h1
    subst hr
    simp [AuthInterceptor.intercept, hne, h0, h1]
  · intro t2 s2 hr h1
    subst hr
    simp [AuthInterceptor.intercept, hne, h0, h1]

/-- Witness for C3 on the `[401, 200]` trace with a successful refresh:
one refresh call, two Transport calls, the second carrying the new
credential, terminal success. -/
theorem C3_witness :
    AuthInterceptor.intercept (some ⟨"old", "r", 1⟩) (.ok ⟨"new", "r2", 1⟩)
      (fun n => if n = 0 then Resp.errS 401 else Resp.ok 7) "https://api/posts"
    = ⟨.success 7,
       [⟨"https://api/posts", some ("Bearer " ++ "old")⟩,
        ⟨"https://api/posts", some ("Bearer " ++ "new")⟩], 1⟩ := by
  have h := C3_401_refresh_retry_once ⟨"old", "r", 1⟩ (.ok ⟨"new", "r2", 1⟩)
    (fun n => if n = 0 then Resp.errS 401 else Resp.ok 7) "https://api/posts"
    (by decide) rfl
  exact h.2.1 ⟨"new", "r2", 1⟩ 7 rfl rfl

/-- Invariant of the concurrency-limited `mergeMap`: never more than `N`
active inner subscriptions, and the admissions out of the buffer followed
by the buffer's current content list exactly the requests that ever
entered the buffer, in arrival order (so admission is strict FIFO). -/
def GateInv (N : Nat) (s : GateState) : Prop :=
  s.active.length ≤ N ∧ s.admitted ++ s.waiting = s.queuedArrivals

theorem gateStep_preserves_inv (N : Nat) (s : GateState) (e : GEvent)
    (h : GateInv N s) : GateInv N (RequestQueueService.step N s e) := by
  obtain ⟨hlen, hfifo⟩ := h
  cases e with
  | submit id =>
    by_cases hfull : s.active.length < N
    · simp only [RequestQueueService.step, if_pos hfull]
      refine ⟨?_, hfifo⟩
      simpa using hfull
    · simp only [RequestQueueService.step, if_neg hfull]
      refine ⟨hlen, ?_⟩
      simp [← hfifo, List.append_assoc]
  | finish id =>
    by_cases hmem : id ∈ s.active
    · have hpos : 0 < s.active.length := List.length_pos_of_mem hmem
      have herase : (s.active.erase id).length = s.active.length - 1 :=
        List.length_erase_of_mem hmem
      simp only [RequestQueueService.step, if_pos hmem]
      cases hw : s.waiting with
      | nil =>
        refine ⟨?_, ?_⟩
        · simp only [herase]; omega
        · rw [hw] at hfifo; simpa [hw] using hfifo
      | cons w ws =>
        refine ⟨?_, ?_⟩
        · simp only [List.length_append, herase, List.length_cons,
            List.length_nil]
          omega
        · rw [hw] at hfifo
          simpa [List.append_assoc] using hfifo
    · simpa only [RequestQueueService.step, if_neg hmem] using ⟨hlen, hfifo⟩

theorem gateRun_preserves_inv (N : Nat) (es : List GEvent) (s : GateState)
    (h : GateInv N s) : GateInv N (es.foldl (RequestQueueService.step N) s) := by
  induction es generalizing s with
  | nil => exact h
  | cons e es ih => exact ih _ (gateStep_preserves_inv N s e h)

/-- Claim C6: for every event sequence against `RequestQueueService`'s
`mergeMap(request, N)`, the number of simultaneously active inner
subscriptions never exceeds `N` (with `N = 1` this fully serializes
requests), and buffered requests are admitted in strict FIFO order of
arrival: the admission history followed by the current buffer always
equals the buffer-arrival history. -/
theorem C6_gate_bound_and_fifo (N : Nat) (es : List GEvent) :
    (RequestQueueService.run N es).active.length ≤ N
    ∧ (RequestQueueService.run N es).admitted
        ++ (RequestQueueService.run N es).waiting
        = (RequestQueueService.run N es).queuedArrivals :=
  gateRun_preserves_inv N es RequestQueueService.init
    ⟨by simp [RequestQueueService.init], by simp [RequestQueueService.init]⟩

/-- Claim C7: `CacheService.getData` never serves an entry older than
`MAX_CACHE_AGE`: whenever it answers from the cache (no network call),
the entry's age at the time of the call is at most `maxAge`; and two
requests for the same fresh key within the TTL window issue exactly one
network call — the first fetches and stores, the second is a pure cache
hit returning the first response with no network call. -/
theorem C7_cache_freshness (maxAge : Nat) :
    (∀ net now url cache d c2,
      CacheService.getData maxAge net now url cache = (d, false, c2) →
      ∃ e, mapGet url cache = some e ∧ d = e.data
        ∧ now - e.timestamp ≤ maxAge ∧ c2 = cache)
    ∧ (∀ net1 net2 t1 t2 url (cache : List (String × CacheEntry)),
      mapGet url cache = none → t2 - t1 ≤ maxAge →
      CacheService.getData maxAge net1 t1 url cache
        = (net1, true, mapSet url ⟨net1, t1⟩ cache)
      ∧ CacheService.getData maxAge net2 t2 url (mapSet url ⟨net1, t1⟩ cache)
        = (net1, false, mapSet url ⟨net1, t1⟩ cache)) := by
  constructor
  · intro net now url cache d c2 hcall
    cases hget : mapGet url cache with
    | none => simp [CacheService.getData, hget] at hcall
    | some e =>
      by_cases hexp : CacheService.isExpired maxAge now e = true
      · simp [CacheService.getData, hget, hexp] at hcall
      · simp [CacheService.getData, hget, hexp] at hcall
        obtain ⟨hd, hc⟩ := hcall
        refine ⟨e, rfl, hd.symm, ?_, hc.symm⟩
        simp only [CacheService.isExpired, decide_eq_true_eq, not_lt] at hexp
        omega
  · intro net1 net2 t1 t2 url cache hnone hfresh
    have hexp : CacheService.isExpired maxAge t2 (⟨net1, t1⟩ : CacheEntry) = false := by
      simp only [CacheService.isExpired, decide_eq_false_iff_not, not_lt]
      omega
    constructor
    · simp [CacheService.getData, hnone]
    · simp [CacheService.getData, mapGet, mapSet, hexp]

/-- Witness for C7: at TTL 300, a miss at time 10 makes the network call
and stores the response; a second request at time 200 (age 190 ≤ 300) is
served from the cache with no network call. -/
theorem C7_witness :
    CacheService.getData 300 5 10 "u" [] = (5, true, [("u", ⟨5, 10⟩)])
    ∧ CacheService.getData 300 6 200 "u" [("u", ⟨5, 10⟩)]
        = (5, false, [("u", ⟨5, 10⟩)]) :=
  (C7_cache_freshness 300).2 5 6 10 200 "u" [] rfl (by decide)

/-- Counterexample to claim C8: `CacheInterceptor` performs no
invalidation on write. After GET r is cached and POST r succeeds, the
next GET r is NOT a cache miss: it is served from the cache with no
network call and returns the pre-write value 1, not a fresh response. -/
theorem C8_counterexample :
    CacheInterceptor.intercept "GET" "r" 1 [] = (1, true, [("r", 1)])
    ∧ CacheInterceptor.intercept "POST" "r" 2 [("r", 1)] = (2, true, [("r", 1)])
    ∧ CacheInterceptor.intercept "GET" "r" 3 [("r", 1)] = (1, false, [("r", 1)]) := by
  decide

/-- Claim C8 amended: non-GET requests pass through `CacheInterceptor`
untouched — the response is delivered as received, the network is always
called, and the cache map is neither consulted nor modified — but no
invalidate-on-write happens: after any successful non-GET request for a
resource, a subsequent GET whose key was cached before the write is
still a cache hit, returning the pre-write entry with no network call. -/
theorem C8_write_bypasses_cache_no_invalidation (method url : String)
    (net net2 : Nat) (cache : List (String × Nat)) (h : method ≠ "GET") :
    CacheInterceptor.intercept method url net cache = (net, true, cache)
    ∧ (∀ v, mapGet url cache = some v →
        CacheInterceptor.intercept "GET" url net2
          (CacheInterceptor.intercept method url net cache).2.2
          = (v, false, cache)) := by
  have hpass : CacheInterceptor.intercept method url net cache
      = (net, true, cache) := by
    simp [CacheInterceptor.intercept, h]
  refine ⟨hpass, ?_⟩
  intro v hv
  rw [hpass]
  simp [CacheInterceptor.intercept, hv]

/-- Witness for C8's amended theorem: a POST to `r` leaves the cache
untouched, and the following GET for `r` is served the stale entry 1
with no network call. -/
theorem C8_witness :
    CacheInterceptor.intercept "POST" "r" 9 [("r", 1)] = (9, true, [("r", 1)])
    ∧ CacheInterceptor.intercept "GET" "r" 8
        (CacheInterceptor.intercept "POST" "r" 9 [("r", 1)]).2.2
        = (1, false, [("r", 1)]) := by
  have h := C8_write_bypasses_cache_no_invalidation "POST" "r" 9 8 [("r", 1)]
    (by decide)
  exact ⟨h.1, h.2 1 rfl⟩

/-- Every run of the rxjs retry loop makes at most `allowed` attempts. -/
theorem retryLoop_le (responses : Nat → Resp) :
    ∀ allowed i, (retryLoop responses i allowed).1 ≤ allowed := by
  intro allowed
  induction allowed with
  | zero => intro i; simp [retryLoop]
  | succ a ih =>
    intro i
    unfold retryLoop
    cases responses i with
    | ok b => simp
    | errS s =>
      by_cases ha : a = 0
      · simp [ha]
      · simpa [ha] using Nat.succ_le_succ (ih (i + 1))

/-- The retry loop always makes at least one attempt when any are allowed. -/
theorem retryLoop_pos (responses : Nat → Resp) (a i : Nat) :
    1 ≤ (retryLoop responses i (a + 1)).1 := by
  unfold retryLoop
  cases responses i with
  | ok b => simp
  | errS s =>
    by_cases ha : a = 0
    · simp [ha]
    · simp [ha]

/-- Counterexample to claim C4: the source's retry (`retry(3)` in
`getPostsWithRetry`) classifies nothing — a 404, which the claim calls
terminal on first occurrence, is retried like every other error: against
a server answering 404 forever, four attempts are made. -/
theorem C4_counterexample :
    getPostsWithRetry (fun _ => .errS 404) = (4, .failure 404) := by decide

/-- Claim C4 amended: `getPostsWithRetry`'s `retry(3)` retries every
error alike — connection failures, timeouts, 5xx, 429 and all other 4xx
included: any error on the first attempt leads to at least a second
attempt. Only the attempt bound survives from the claim: a request is
attempted at most `maxRetries + 1 = 4` times. -/
theorem C4_retry_all_errors_bounded :
    (∀ responses, (getPostsWithRetry responses).1 ≤ 4)
    ∧ (∀ responses s, responses 0 = Resp.errS s →
        2 ≤ (getPostsWithRetry responses).1) := by
  constructor
  · intro responses
    exact retryLoop_le responses 4 0
  · intro responses s h0
    unfold getPostsWithRetry retryLoop
    rw [h0]
    simpa using Nat.succ_le_succ (retryLoop_pos responses 2 1)

/-- Witness for C4's amended theorem: a server answering 503 forever
draws between 2 and 4 attempts from `getPostsWithRetry`. -/
theorem C4_witness :
    2 ≤ (getPostsWithRetry (fun _ => Resp.errS 503)).1
    ∧ (getPostsWithRetry (fun _ => Resp.errS 503)).1 ≤ 4 :=
  ⟨C4_retry_all_errors_bounded.2 (fun _ => Resp.errS 503) 503 rfl,
   C4_retry_all_errors_bounded.1 (fun _ => Resp.errS 503)⟩

/-- Counterexample to claim C5: `retryWithBackoff(3, 1000)` delays the
third retry by 3000 ms, which no jitter value in `[0, 1000)` can
reconcile with the claimed `base * 2^(attemptNumber-1) + jitter`
(= 4000 + jitter): the code's backoff is linear, not exponential. -/
theorem C5_counterexample :
    retryWithBackoffDelay 1000 3 = 3000
    ∧ ∀ j, j < 1000 → 1000 * 2 ^ (3 - 1) + j ≠ 3000 := by
  refine ⟨by decide, ?_⟩
  intro j hj
  have h4 : 1000 * 2 ^ (3 - 1) = 4000 := by norm_num
  omega

/-- Claim C5 amended: the 429 half of the claim holds —
`BatchErrorHandler.handleBatchError` waits exactly the server's
`Retry-After` hint (seconds, scheduled as hint * 1000 ms) with no
backoff formula, and rethrows any non-429 error. For other retried
errors `retryWithBackoff` applies a linear, jitterless, uncapped delay:
each further attempt adds exactly `backoffMs`, and the delay exceeds
every bound; `BatchErrorHandler`'s inner `retryBatch` doubles its
(equally jitterless and uncapped) delay each retry. -/
theorem C5_delay_rules :
    (∀ hint, handleBatchError 429 (some hint) = .wait (hint * 1000))
    ∧ (∀ status hint, status ≠ 429 → handleBatchError status hint = .rethrow)
    ∧ (∀ b n, retryWithBackoffDelay b (n + 1) = retryWithBackoffDelay b n + b)
    ∧ (∀ M b, 1 ≤ b → ∃ n, M < retryWithBackoffDelay b n)
    ∧ (∀ n, retryBatchDelay (n + 1) = 2 * retryBatchDelay n) := by
  refine ⟨?_, ?_, ?_, ?_, ?_⟩
  · intro hint
    simp [handleBatchError]
  · intro status hint h
    simp [handleBatchError, h]
  · intro b n
    simp [retryWithBackoffDelay, Nat.succ_mul]
  · intro M b hb
    refine ⟨M + 1, ?_⟩
    calc M < M + 1 := Nat.lt_succ_self M
    _ = (M + 1) * 1 := by ring
    _ ≤ (M + 1) * b := Nat.mul_le_mul_left _ hb
    _ = retryWithBackoffDelay b (M + 1) := rfl
  · intro n
    simp [retryBatchDelay, pow_succ]
    ring

/-- Witness for C5's amended theorem: a 429 with `Retry-After: 2` waits
exactly 2000 ms; a 500 is rethrown; and the linear backoff at base 1000
exceeds one million milliseconds at some attempt. -/
theorem C5_witness :
    handleBatchError 429 (some 2) = .wait 2000
    ∧ handleBatchError 500 (some 2) = .rethrow
    ∧ ∃ n, 1000000 < retryWithBackoffDelay 1000 n :=
  ⟨C5_delay_rules.1 2,
   C5_delay_rules.2.1 500 (some 2) (by decide),
   C5_delay_rules.2.2.2.1 1000000 1000 (by decide)⟩

/-- Counterexample to claim C1: two concurrent callers invoke
`AuthService.refreshToken` and the single in-flight refresh fails.
Exactly one network call was made, but the callers do NOT receive the
same outcome: caller 0 (the initiator) receives the failure while caller
1, attached through `filter(token => token !== null)`, receives no
outcome at all when the refresh completes — `next(null)` never passes
its filter. -/
theorem C1_counterexample :
    (AuthService.run (AuthService.init (some ⟨"a0", "r0", 100⟩))
      [.invoke 0, .invoke 1, .completeFailure]).refreshHttpCalls = 1
    ∧ (AuthService.run (AuthService.init (some ⟨"a0", "r0", 100⟩))
        [.invoke 0, .invoke 1, .completeFailure]).results
        = [(0, RefreshOutcome.refreshFailed)]
    ∧ ∀ o, (1, o) ∉ (AuthService.run (AuthService.init (some ⟨"a0", "r0", 100⟩))
        [.invoke 0, .invoke 1, .completeFailure]).results := by
  refine ⟨by decide, by decide, ?_⟩
  intro o ho
  rw [show (AuthService.run (AuthService.init (some ⟨"a0", "r0", 100⟩))
      [.invoke 0, .invoke 1, .completeFailure]).results
      = [(0, RefreshOutcome.refreshFailed)] from by decide] at ho
  simp at ho

/-- Claim C1 amended: the single-flight half of the claim holds —
invoking `refreshToken` while a refresh is already in progress starts no
new network call, and when the in-flight refresh completes successfully
the initiator and every caller waiting on the subject receive the same
new credential. But the same-outcome half fails for failures (only the
initiator receives a failure; waiters receive nothing — see the
counterexample) and for a caller that attaches while the
`BehaviorSubject` still holds a token published by an earlier refresh,
which resolves immediately from the currently stored tokens instead of
awaiting the in-flight result. -/
theorem C1_single_flight (s : AuthState) (c : Nat) (t : AuthTokens) (i : Nat)
    (hp : s.refreshTokenInProgress = true) :
    (AuthService.refreshStep s (.invoke c)).refreshHttpCalls
        = s.refreshHttpCalls
    ∧ (s.refreshInitiator = some i →
        (AuthService.refreshStep s (.completeSuccess t)).results
          = s.results ++ [(i, RefreshOutcome.success t)]
              ++ s.waiters.map (fun w => (w, RefreshOutcome.success t))) := by
  constructor
  · unfold AuthService.refreshStep
    rw [hp]
    cases s.subjectVal <;> simp
  · intro hi
    unfold AuthService.refreshStep
    rw [hp]
    simp [hi]

/-- Witness for C1's amended theorem: with a refresh in flight initiated
by caller 0 and caller 5 waiting, a new invocation by caller 7 leaves
the network-call count at 1, and a successful completion delivers the
same new tokens to the initiator 0 and the waiter 5. -/
theorem C1_witness :
    (AuthService.refreshStep ⟨true, none, none, [5], some 0, [], 1⟩
        (AEvent.invoke 7)).refreshHttpCalls = 1
    ∧ (AuthService.refreshStep ⟨true, none, none, [5], some 0, [], 1⟩
        (AEvent.completeSuccess ⟨"a", "r", 1⟩)).results
        = [(0, RefreshOutcome.success ⟨"a", "r", 1⟩),
           (5, RefreshOutcome.success ⟨"a", "r", 1⟩)] := by
  have h := C1_single_flight ⟨true, none, none, [5], some 0, [], 1⟩ 7
    ⟨"a", "r", 1⟩ 0 rfl
  exact ⟨h.1, (h.2 rfl).trans (by decide)⟩

/-- Counterexample to claim C2: when the in-flight refresh fails, the
waiting caller 4 is left pending — still in the waiter list, with no
result delivered — rather than receiving `RefreshFailed`; only the
initiating caller 3 observes the failure. -/
theorem C2_counterexample :
    (AuthService.run (AuthService.init (some ⟨"x", "y", 5⟩))
      [.invoke 3, .invoke 4, .completeFailure]).waiters = [4]
    ∧ (AuthService.run (AuthService.init (some ⟨"x", "y", 5⟩))
        [.invoke 3, .invoke 4, .completeFailure]).results
        = [(3, RefreshOutcome.refreshFailed)] := by decide

/-- Claim C2 amended: when the underlying refresh fails, the initiating
caller receives the failure, the manager transitions to logged out
(`logout()` clears the stored tokens) with the in-progress flag reset,
and no second refresh attempt is made automatically (the network-call
count is unchanged); but the callers waiting on the subject receive
neither the failure nor any stale success — they remain pending, their
waiter entries untouched. -/
theorem C2_refresh_failure (s : AuthState) (i : Nat)
    (hp : s.refreshTokenInProgress = true) (hi : s.refreshInitiator = some i) :
    AuthService.refreshStep s .completeFailure
      = { s with refreshTokenInProgress := false,
                 subjectVal := none,
                 stored := none,
                 results := s.results ++ [(i, RefreshOutcome.refreshFailed)],
                 refreshInitiator := none }
    ∧ (AuthService.refreshStep s .completeFailure).waiters = s.waiters
    ∧ (AuthService.refreshStep s .completeFailure).refreshHttpCalls
        = s.refreshHttpCalls
    ∧ (AuthService.refreshStep s .completeFailure).stored = none := by
  have h : AuthService.refreshStep s .completeFailure
      = { s with refreshTokenInProgress := false,
                 subjectVal := none,
                 stored := none,
                 results := s.results ++ [(i, RefreshOutcome.refreshFailed)],
                 refreshInitiator := none } := by
    unfold AuthService.refreshStep
    rw [hp]
    simp [hi]
  exact ⟨h, by rw [h], by rw [h], by rw [h]⟩

/-- Witness for C2's amended theorem: a failing refresh initiated by
caller 3 with caller 4 waiting delivers the failure to 3 only, clears
the stored tokens, keeps 4 in the waiter list, and starts no new
network call. -/
theorem C2_witness :
    AuthService.refreshStep ⟨true, none, some ⟨"x", "y", 5⟩, [4], some 3, [], 1⟩
        AEvent.completeFailure
      = ⟨false, none, none, [4], none, [(3, RefreshOutcome.refreshFailed)], 1⟩
    ∧ (AuthService.refreshStep ⟨true, none, some ⟨"x", "y", 5⟩, [4], some 3, [], 1⟩
        AEvent.completeFailure).waiters = [4]
    ∧ (AuthService.refreshStep ⟨true, none, some ⟨"x", "y", 5⟩, [4], some 3, [], 1⟩
        AEvent.completeFailure).refreshHttpCalls = 1
    ∧ (AuthService.refreshStep ⟨true, none, some ⟨"x", "y", 5⟩, [4], some 3, [], 1⟩
        AEvent.completeFailure).stored = none := by
  have h := C2_refresh_failure ⟨true, none, some ⟨"x", "y", 5⟩, [4], some 3, [], 1⟩
    3 rfl rfl
  exact ⟨h.1, h.2.1, h.2.2.1, h.2.2.2⟩
